import Mathlib

set_option linter.unusedVariables false

/-! Shallow embedding of the pane rendering and interaction core of a
charting library: the area fill renderer (`src/renderers/area-renderer.ts`)
and the pane interaction controller (`PaneWidget`).  Screen coordinates,
sizes and timestamps are modelled as rationals; canvas path construction is
modelled as the list of path commands issued to the 2D context. -/

/-- A screen-space point (the source's `Point` / `{x, y}` literals). -/
structure Point where
  x : ℚ
  y : ℚ
deriving Repr, DecidableEq

/-- One canvas path command issued to the rendering context. -/
inductive PathCmd where
  | moveTo (p : Point)
  | lineTo (p : Point)
  | closePath
deriving Repr, DecidableEq

/-- The point carried by a path command, if any. -/
def PathCmd.point? : PathCmd → Option Point
  | .moveTo p => some p
  | .lineTo p => some p
  | .closePath => none

/-- The vertex sequence of a command list (`moveTo`/`lineTo` targets in order). -/
def pathPoints (cmds : List PathCmd) : List Point :=
  cmds.filterMap PathCmd.point?

/-- An item of the line/area series (`LineItem`: a screen-space point). -/
structure LineItem where
  x : ℚ
  y : ℚ
deriving Repr, DecidableEq

/-- Line interpolation strategy (`LineType` from `draw-line.ts`). -/
inductive LineType where
  | simple
  | withSteps
deriving Repr, DecidableEq

/-- A half-open index range `[from, to)` (`SeriesItemsIndexesRange`). -/
structure SeriesItemsIndexesRange where
  from_ : Nat
  to_ : Nat
deriving Repr, DecidableEq

/-- Data consumed by the area renderer (`PaneRendererAreaData`).
`lineStyle` is the numeric enum value; colors are kept as strings. -/
structure PaneRendererAreaData where
  items : List LineItem
  lineType : LineType
  lineColor : String
  lineWidth : ℚ
  lineStyle : Nat
  topColor : String
  topMiddleColor : String
  bottomMiddleColor : String
  bottomColor : String
  bottom : ℚ
  barWidth : ℚ
  visibleRange : Option SeriesItemsIndexesRange
deriving Repr, DecidableEq

/-- Item lookup; out-of-range indices (impossible under the theorems's
hypotheses) default to the origin, mirroring total access. -/
def itemAt (items : List LineItem) (i : Nat) : LineItem :=
  items.getD i ⟨0, 0⟩

/-- Modelled from the spec: `walk-line.ts` is not under `src/`.  The spec
says the renderer "walks forward through the interpolation strategy
(straight/step/curved — delegated to an external line-walking routine)
across the visible range".  The block of segments ending at item `i`:
straight interpolation emits exactly the segment to item `i`; step
interpolation first emits the horizontal corner at the previous item's y. -/
def segTo (items : List LineItem) (t : LineType) (i : Nat) : List PathCmd :=
  match t with
  | .simple => [.lineTo ⟨(itemAt items i).x, (itemAt items i).y⟩]
  | .withSteps =>
      [.lineTo ⟨(itemAt items i).x, (itemAt items (i - 1)).y⟩,
       .lineTo ⟨(itemAt items i).x, (itemAt items i).y⟩]

/-- Modelled from the spec: `walk-line.ts` is not under `src/`.  The path
is already positioned at item `from_` when `walkLine` is invoked, so the
walk emits the interpolation blocks for indices `from_ + 1, …, to_ - 1`
in ascending order. -/
def walkLine (items : List LineItem) (t : LineType) (to_ : Nat) (from_ : Nat) : List PathCmd :=
  (List.range' (from_ + 1) (to_ - (from_ + 1))).flatMap (segTo items t)

/-- Path construction of `PaneRendererArea._drawImpl` after its guard
clauses (non-null data, non-empty items, non-null visible range). -/
def buildPath (d : PaneRendererAreaData) (vr : SeriesItemsIndexesRange) : List PathCmd :=
  let from_ := if vr.from_ = 0 then vr.from_ + 1 else vr.from_
  if d.items.length = 1 then
    let point := itemAt d.items 0
    let halfBarWidth := d.barWidth / 2
    [.moveTo ⟨point.x - halfBarWidth, point.y⟩,
     .lineTo ⟨point.x - halfBarWidth, point.y⟩,
     .lineTo ⟨point.x + halfBarWidth, point.y⟩,
     .lineTo ⟨point.x + halfBarWidth, point.y⟩,
     .closePath]
  else
    [PathCmd.moveTo ⟨(itemAt d.items from_).x, (itemAt d.items 0).y⟩,
     PathCmd.lineTo ⟨(itemAt d.items from_).x, (itemAt d.items from_).y⟩]
    ++ walkLine d.items d.lineType vr.to_ from_
    ++ (if from_ < vr.to_ then
          [PathCmd.lineTo ⟨(itemAt d.items (vr.to_ - 1)).x, (itemAt d.items 0).y⟩,
           PathCmd.lineTo ⟨(itemAt d.items from_).x, (itemAt d.items 0).y⟩]
        else [])
    ++ [PathCmd.closePath]

/-- Stroke/fill style state set up by `_drawImpl` before drawing.  The
source sets `lineWidth` to the data's width and then overrides it with 1
("walk lines with width=1 to have more accurate gradient's filling"); the
final value is recorded. -/
structure CtxStyle where
  lineCap : String
  lineJoin : String
  strokeStyle : String
  lineWidth : ℚ
  lineStyle : Nat
deriving Repr, DecidableEq

/-- A linear canvas gradient: the two anchor points and the color stops
(offset, color) in the order they were added. -/
structure LinearGradient where
  x0 : ℚ
  y0 : ℚ
  x1 : ℚ
  y1 : ℚ
  stops : List (ℚ × String)
deriving Repr, DecidableEq

/-- Everything `_drawImpl` emits when it draws. -/
structure AreaDrawOutput where
  style : CtxStyle
  path : List PathCmd
  gradient : LinearGradient
deriving Repr, DecidableEq

/-- `PaneRendererArea._drawImpl`: `none` models the early return (null
data / zero items / null visible range: nothing is drawn). -/
def drawImpl (dataOpt : Option PaneRendererAreaData) : Option AreaDrawOutput :=
  match dataOpt with
  | none => none
  | some d =>
    if d.items.length = 0 then none
    else
      match d.visibleRange with
      | none => none
      | some vr =>
        some
          { style :=
              { lineCap := "butt", lineJoin := "round", strokeStyle := d.lineColor,
                lineWidth := 1, lineStyle := d.lineStyle }
            path := buildPath d vr
            gradient :=
              { x0 := 0, y0 := (itemAt d.items 0).y - d.bottom / 3,
                x1 := 0, y1 := (itemAt d.items 0).y + d.bottom / 3,
                stops :=
                  [(0, d.topColor), (1/2, d.topMiddleColor),
                   (1/2, d.bottomMiddleColor), (1, d.bottomColor)] } }

/-- The advanced walk start: a visible-range start of 0 is advanced to 1. -/
def advancedFrom (vr : SeriesItemsIndexesRange) : Nat :=
  if vr.from_ = 0 then vr.from_ + 1 else vr.from_

/-- A sample area data set used by the concrete witnesses below. -/
def sampleAreaData : PaneRendererAreaData :=
  { items := [⟨0, 5⟩, ⟨1, 7⟩, ⟨2, 9⟩], lineType := .simple, lineColor := "c",
    lineWidth := 1, lineStyle := 0, topColor := "a", topMiddleColor := "b",
    bottomMiddleColor := "c", bottomColor := "d", bottom := 30, barWidth := 2,
    visibleRange := some ⟨0, 3⟩ }

/-- A two-item data set whose visible range is `[0, 1)`: only the
baseline-anchor index is visible, so the walked range is empty. -/
def areaRangeZeroOneData : PaneRendererAreaData :=
  { items := [⟨0, 0⟩, ⟨10, 20⟩], lineType := .simple, lineColor := "c",
    lineWidth := 1, lineStyle := 0, topColor := "a", topMiddleColor := "b",
    bottomMiddleColor := "c", bottomColor := "d", bottom := 30, barWidth := 2,
    visibleRange := some ⟨0, 1⟩ }

/-- A single-item data set for the C8 witness. -/
def singlePointAreaData : PaneRendererAreaData :=
  { items := [⟨4, 5⟩], lineType := .simple, lineColor := "c",
    lineWidth := 1, lineStyle := 0, topColor := "a", topMiddleColor := "b",
    bottomMiddleColor := "c", bottomColor := "d", bottom := 30, barWidth := 2,
    visibleRange := some ⟨0, 1⟩ }

/-! The pane interaction controller (`PaneWidget`).  DOM construction,
canvas painting and the price-axis sub-widgets are out of scope; the
chart-model calls a handler performs are recorded as an ordered action
list, and `ensureNotNull` failures are recorded as an error outcome
(actions already performed before the failure are kept, matching the
source's mutation-then-throw order). -/

/-- Pane size in pixels (`Size` from `canvas-utils.ts`). -/
structure Size where
  w : ℚ
  h : ℚ
deriving Repr, DecidableEq

/-- A pane renderer as consumed by the hit-test pass (`IPaneRenderer`):
an optional hit-test capability returning an optional hovered-object
payload (`HoveredObject.hitTestData`, modelled as `Nat`). -/
structure PaneRenderer where
  hitTest : Option (ℚ → ℚ → Option Nat)

/-- A per-pane visual view (`IPaneView`): resolves to a renderer (or none)
for the current pane height/width; the optional `moveHandler` and
`clickHandler` hooks are represented by presence flags. -/
structure PaneView where
  renderer : ℚ → ℚ → Option PaneRenderer
  hasMoveHandler : Bool
  hasClickHandler : Bool

/-- A data source (`IDataSource`): its ordered pane views.  The `pane`
argument of `paneViews` is always the controller's own pane and is
dropped. -/
structure DataSource where
  paneViews : List PaneView

/-- The pane model state the controller references (`Pane`): the
front-to-back ordered sources and the default price scale's emptiness. -/
structure Pane where
  orderedSources : List DataSource
  defaultPriceScaleIsEmpty : Bool

/-- A drag origin (`StartScrollPosition`). -/
structure StartScrollPosition where
  x : ℚ
  y : ℚ
  timestamp : ℚ
  localX : ℚ
  localY : ℚ
deriving Repr, DecidableEq

/-- Modelled from the spec: `kinetic-animation.ts` is not under `src/`.
Only the data the controller stores is represented: the construction
parameters, the recorded (position, timestamp) history, the `start`
sample, and the termination flag.  The velocity/decay computations behind
`finished` and `getPosition` are supplied as environment oracles. -/
structure KineticAnimation where
  minSpeed : ℚ
  maxSpeed : ℚ
  dumpingCoeff : ℚ
  scrollMinMove : ℚ
  positions : List (ℚ × ℚ)
  startedAt : Option (ℚ × ℚ)
  terminatedFlag : Bool
deriving Repr, DecidableEq

/-- `new KineticAnimation(minSpeed, maxSpeed, dumpingCoeff, scrollMinMove)`. -/
def KineticAnimation.new (minSpeed maxSpeed dumpingCoeff scrollMinMove : ℚ) :
    KineticAnimation :=
  ⟨minSpeed, maxSpeed, dumpingCoeff, scrollMinMove, [], none, false⟩

/-- `addPosition(position, time)`: records a history sample. -/
def KineticAnimation.addPosition (a : KineticAnimation) (pos time : ℚ) : KineticAnimation :=
  { a with positions := a.positions ++ [(pos, time)] }

/-- `start(position, time)`: records the start sample. -/
def KineticAnimation.start (a : KineticAnimation) (pos time : ℚ) : KineticAnimation :=
  { a with startedAt := some (pos, time) }

/-- `terminate()`: sets the termination flag. -/
def KineticAnimation.terminate (a : KineticAnimation) : KineticAnimation :=
  { a with terminatedFlag := true }

/-- `Constants.MinScrollSpeed` (0.2). -/
def minScrollSpeed : ℚ := 1/5

/-- `Constants.MaxScrollSpeed`. -/
def maxScrollSpeed : ℚ := 7

/-- `Constants.DumpingCoeff` (0.997). -/
def dumpingCoeff : ℚ := 997/1000

/-- `Constants.ScrollMinMove`. -/
def scrollMinMove : ℚ := 15

/-- One chart-model mutation performed by the controller. -/
inductive ModelAction where
  | setAndSaveCurrentPosition (x y : ℚ)
  | clearCurrentPosition
  | setHoveredSource (objectData : Option Nat)
  | viewMoveHandlerCall (x y : ℚ)
  | viewClickHandlerCall (x y : ℚ)
  | fireClicked (timeIndex : Option Int) (x y : ℚ)
  | startScrollPrice (y : ℚ)
  | scrollPriceTo (y : ℚ)
  | endScrollPrice
  | startScrollTime (x : ℚ)
  | scrollTimeTo (x : ℚ)
  | endScrollTime
  | zoomTime (x : ℚ) (scale : ℚ)
deriving Repr, DecidableEq

/-- The controller's own mutable fields (`PaneWidget`): the pane
reference, the stored size, the two canvas-binding sizes and the pane
cell's style sizes, and the interaction session state. -/
structure ControllerState where
  state : Option Pane
  size : Size
  canvasSize : Size
  topCanvasSize : Size
  paneCellWidth : ℚ
  paneCellHeight : ℚ
  startScrollingPos : Option StartScrollPosition
  isScrolling : Bool
  longTap : Bool
  startTrackPoint : Option Point
  exitTrackingModeOnNextTry : Bool
  initCrosshairPosition : Option Point
  scrollXAnimation : Option KineticAnimation
  prevPinchScale : ℚ

/-- `ChartOptions.handleScroll`. -/
structure HandleScrollOptions where
  pressedMouseMove : Bool
  horzTouchDrag : Bool
  vertTouchDrag : Bool
deriving Repr, DecidableEq

/-- `ChartOptions.kineticScroll`. -/
structure KineticScrollOptions where
  touch : Bool
  mouse : Bool
deriving Repr, DecidableEq

/-- The chart options the controller reads. -/
structure ChartOptionsModel where
  handleScroll : HandleScrollOptions
  kineticScroll : KineticScrollOptions
  handleScalePinch : Bool
deriving Repr, DecidableEq

/-- External collaborators the handlers query: platform flags, options,
model queries (time-scale emptiness, crosshair applied position/index,
time-scale right offset), the clock, and the spec-modelled kinetic
animation's `finished` / `getPosition` oracles. -/
structure Env where
  isMobile : Bool
  mobileTouch : Bool
  options : ChartOptionsModel
  timeScaleIsEmpty : Bool
  now : ℚ
  crosshairApplied : Point
  crosshairAppliedIndex : Option Int
  clickedHasListeners : Bool
  animFinished : KineticAnimation → ℚ → Bool
  animPosition : KineticAnimation → ℚ → ℚ
  rightOffset : ℚ
  rightOffsetAfterScrollTo : ℚ → ℚ

/-- The input type of a `TouchMouseEvent`. -/
inductive EvKind where
  | mouse
  | touch
deriving Repr, DecidableEq

/-- A pointer event (`TouchMouseEvent`): local and client coordinates. -/
structure TouchMouseEvent where
  localX : ℚ
  localY : ℚ
  clientX : ℚ
  clientY : ℚ
  type : EvKind
deriving Repr, DecidableEq

/-- The outcome of one handler invocation: the controller state after it,
the model actions performed (in order), the raised error if any, and
whether an animation frame was requested. -/
structure HandlerResult where
  st : ControllerState
  actions : List ModelAction
  error : Option String
  requestedFrame : Bool

/-- A handler step that does nothing. -/
def HandlerResult.noop (st : ControllerState) : HandlerResult := ⟨st, [], none, false⟩

/-- Sequencing of handler steps: a raised error aborts the rest (already
performed actions and state mutations are kept). -/
def HandlerResult.andThen (r : HandlerResult) (f : ControllerState → HandlerResult) :
    HandlerResult :=
  match r.error with
  | some _ => r
  | none =>
    let r2 := f r.st
    ⟨r2.st, r.actions ++ r2.actions, r2.error, r.requestedFrame || r2.requestedFrame⟩

/-- `trackCrosshairOnlyAfterLongTap` (set to `isMobile` at module load). -/
def trackCrosshairOnlyAfterLongTap (env : Env) : Bool := env.isMobile

/-- `_correctXCoord`: clamp x into `[0, width − 1]`. -/
def correctXCoord (st : ControllerState) (x : ℚ) : ℚ :=
  max 0 (min x (st.size.w - 1))

/-- `_correctYCoord`: clamp y into `[0, height − 1]`. -/
def correctYCoord (st : ControllerState) (y : ℚ) : ℚ :=
  max 0 (min y (st.size.h - 1))

/-- `_setCrosshairPosition`: passes the clamped point to the model;
`ensureNotNull(this._state)` is evaluated before the model call, so a
null pane raises without performing any action. -/
def setCrosshairPosition (st : ControllerState) (x y : ℚ) : HandlerResult :=
  match st.state with
  | none => ⟨st, [], some "Value is null", false⟩
  | some _ =>
    ⟨st, [.setAndSaveCurrentPosition (correctXCoord st x) (correctYCoord st y)], none, false⟩

/-- `_clearCrosshairPosition`. -/
def clearCrosshairPosition (st : ControllerState) : HandlerResult :=
  ⟨st, [.clearCurrentPosition], none, false⟩

/-- `_preventCrosshairMove`. -/
def preventCrosshairMove (st : ControllerState) (env : Env) : Bool :=
  trackCrosshairOnlyAfterLongTap env && st.startTrackPoint.isNone

/-- `_preventScroll`. -/
def preventScroll (st : ControllerState) (env : Env) : Bool :=
  (trackCrosshairOnlyAfterLongTap env && st.longTap) || st.startTrackPoint.isSome

/-- `_finishScroll`: ends both scrolls and clears the session state
(`this.state()` raises on a null pane before any action). -/
def finishScroll (st : ControllerState) : HandlerResult :=
  match st.state with
  | none => ⟨st, [], some "Value is null", false⟩
  | some _ =>
    ⟨{ st with startScrollingPos := none, isScrolling := false },
     [.endScrollPrice, .endScrollTime], none, false⟩

/-- `_terminateKineticAnimation`.  The source terminates the shared
animation object and then drops its reference; the tick closure keeps the
terminated object, which `kineticTick` receives explicitly. -/
def terminateKineticAnimation (st : ControllerState) (env : Env) : HandlerResult :=
  let xAnimationFinished :=
    match st.scrollXAnimation with
    | none => true
    | some a => env.animFinished a env.now
  let r :=
    match st.scrollXAnimation with
    | some _ => if xAnimationFinished then HandlerResult.noop st else finishScroll st
    | none => HandlerResult.noop st
  r.andThen fun st1 =>
    match st1.scrollXAnimation with
    | some a =>
      let _terminated := a.terminate
      HandlerResult.noop { st1 with scrollXAnimation := none }
    | none => HandlerResult.noop st1

/-- The view/object pair found inside one source (`HitTestPaneViewResult`). -/
structure HitTestPaneViewResult where
  view : PaneView
  object : Nat

/-- The full hit-test result (`HitTestResult`). -/
structure HitTestResult where
  source : DataSource
  view : PaneView
  object : Nat

/-- `PaneWidget._hitTestPaneView`: first view whose renderer exists,
exposes a hit test, and claims the point; a null renderer or a renderer
without hit-test capability is skipped. -/
def hitTestPaneView (sz : Size) (x y : ℚ) : List PaneView → Option HitTestPaneViewResult
  | [] => none
  | v :: rest =>
    match v.renderer sz.h sz.w with
    | some r =>
      match r.hitTest with
      | some ht =>
        match ht x y with
        | some result => some ⟨v, result⟩
        | none => hitTestPaneView sz x y rest
      | none => hitTestPaneView sz x y rest
    | none => hitTestPaneView sz x y rest

/-- The source loop of `PaneWidget.hitTest`. -/
def hitTestSources (sz : Size) (x y : ℚ) : List DataSource → Option HitTestResult
  | [] => none
  | s :: rest =>
    match hitTestPaneView sz x y s.paneViews with
    | some sourceResult => some ⟨s, sourceResult.view, sourceResult.object⟩
    | none => hitTestSources sz x y rest

/-- `PaneWidget.hitTest`. -/
def hitTest (st : ControllerState) (x y : ℚ) : Option HitTestResult :=
  match st.state with
  | none => none
  | some pane => hitTestSources st.size x y pane.orderedSources

/-- The views whose renderer was requested by one `_hitTestPaneView` run,
in query order (instrumentation of the same traversal). -/
def hitTestPaneViewVisited (sz : Size) (x y : ℚ) : List PaneView → List PaneView
  | [] => []
  | v :: rest =>
    match v.renderer sz.h sz.w with
    | some r =>
      match r.hitTest with
      | some ht =>
        match ht x y with
        | some _ => [v]
        | none => v :: hitTestPaneViewVisited sz x y rest
      | none => v :: hitTestPaneViewVisited sz x y rest
    | none => v :: hitTestPaneViewVisited sz x y rest

/-- The views queried by one `hitTest` run across all sources, in order. -/
def hitTestSourcesVisited (sz : Size) (x y : ℚ) : List DataSource → List PaneView
  | [] => []
  | s :: rest =>
    match hitTestPaneView sz x y s.paneViews with
    | some _ => hitTestPaneViewVisited sz x y s.paneViews
    | none => hitTestPaneViewVisited sz x y s.paneViews ++ hitTestSourcesVisited sz x y rest

/-- The views queried by `hitTest st x y`, in order. -/
def hitTestVisited (st : ControllerState) (x y : ℚ) : List PaneView :=
  match st.state with
  | none => []
  | some pane => hitTestSourcesVisited st.size x y pane.orderedSources

/-- Whether (and with which payload) a single view claims the point:
renderer present, hit test present, and positive result. -/
def viewClaimResult (sz : Size) (x y : ℚ) (v : PaneView) : Option Nat :=
  match v.renderer sz.h sz.w with
  | none => none
  | some r =>
    match r.hitTest with
    | none => none
    | some ht => ht x y

/-- All pane views of a pane in front-to-back z-order. -/
def allPaneViews (pane : Pane) : List PaneView :=
  pane.orderedSources.flatMap DataSource.paneViews

/-- Reference formulation following the spec's words: the first
(source, view) pair in z-order whose view claims the point. -/
def hitTestSpec (pane : Pane) (sz : Size) (x y : ℚ) : Option HitTestResult :=
  pane.orderedSources.findSome? fun s =>
    s.paneViews.findSome? fun v =>
      (viewClaimResult sz x y v).map fun obj => ⟨s, v, obj⟩

/-- The prefix of a list up to and including its first hit of `p`. -/
def takeUntilHit {α : Type} (p : α → Bool) : List α → List α
  | [] => []
  | a :: rest => if p a then [a] else a :: takeUntilHit p rest

/-- `PaneWidget.mouseEnterEvent`. -/
def mouseEnterEvent (st : ControllerState) (env : Env) (ev : TouchMouseEvent) :
    HandlerResult :=
  match st.state with
  | none => .noop st
  | some _ =>
    if env.mobileTouch then .noop st
    else setCrosshairPosition st ev.localX ev.localY

/-- `PaneWidget.mouseDownEvent`.  The long-tap flag and the pending
exit-tracking flag are written before the pane-reference check; DOM focus
and text-selection clearing have no model or controller effect and are
omitted. -/
def mouseDownEvent (st : ControllerState) (env : Env) (ev : TouchMouseEvent) :
    HandlerResult :=
  let st := { st with longTap := false,
                      exitTrackingModeOnNextTry := st.startTrackPoint.isSome }
  match st.state with
  | none => .noop st
  | some pane =>
    (terminateKineticAnimation st env).andThen fun st1 =>
      if pane.defaultPriceScaleIsEmpty || env.timeScaleIsEmpty then .noop st1
      else
        let st2 :=
          if st1.startTrackPoint.isSome then
            { st1 with initCrosshairPosition := some env.crosshairApplied,
                       startTrackPoint := some ⟨ev.localX, ev.localY⟩ }
          else st1
        if env.mobileTouch then .noop st2
        else setCrosshairPosition st2 ev.localX ev.localY

/-- `PaneWidget.mouseMoveEvent`. -/
def mouseMoveEvent (st : ControllerState) (env : Env) (ev : TouchMouseEvent) :
    HandlerResult :=
  match st.state with
  | none => .noop st
  | some _ =>
    let x := ev.localX
    let y := ev.localY
    let r1 := if preventCrosshairMove st env then clearCrosshairPosition st else .noop st
    r1.andThen fun st1 =>
      if env.mobileTouch then .noop st1
      else
        (setCrosshairPosition st1 x y).andThen fun st2 =>
          let ht := hitTest st2 x y
          (⟨st2, [.setHoveredSource (ht.map HitTestResult.object)], none, false⟩ :
              HandlerResult).andThen fun st3 =>
            match ht with
            | some h =>
              if h.view.hasMoveHandler then ⟨st3, [.viewMoveHandlerCall x y], none, false⟩
              else .noop st3
            | none => .noop st3

/-- `PaneWidget._tryExitTrackingMode` (the armed flag itself is not reset). -/
def tryExitTrackingMode (st : ControllerState) : HandlerResult :=
  if st.exitTrackingModeOnNextTry then
    ⟨{ st with startTrackPoint := none }, [.clearCurrentPosition], none, false⟩
  else .noop st

/-- `PaneWidget.mouseClickEvent`. -/
def mouseClickEvent (st : ControllerState) (env : Env) (ev : TouchMouseEvent) :
    HandlerResult :=
  match st.state with
  | none => .noop st
  | some _ =>
    let x := ev.localX
    let y := ev.localY
    let ht := hitTest st x y
    let r1 : HandlerResult :=
      match ht with
      | some h =>
        if h.view.hasClickHandler then ⟨st, [.viewClickHandlerCall x y], none, false⟩
        else .noop st
      | none => .noop st
    r1.andThen fun st1 =>
      let r2 : HandlerResult :=
        if env.clickedHasListeners then
          ⟨st1, [.fireClicked env.crosshairAppliedIndex x y], none, false⟩
        else .noop st1
      r2.andThen fun st2 => tryExitTrackingMode st2

/-- The crosshair section of `pressedMouseMoveEvent` (lines 339–348):
tracking mode moves the crosshair by the pointer's delta from the drag
start, applied to the crosshair position recorded at track start
(`ensureNotNull(this._initCrosshairPosition)` raises when absent);
otherwise the ordinary suppression rule applies. -/
def pressedMoveCrosshairPhase (st : ControllerState) (env : Env) (ev : TouchMouseEvent) :
    HandlerResult :=
  match st.startTrackPoint with
  | some sp =>
    let st := { st with exitTrackingModeOnNextTry := false }
    match st.initCrosshairPosition with
    | none => ⟨st, [], some "Value is null", false⟩
    | some origPoint =>
      let newX := origPoint.x + (ev.localX - sp.x)
      let newY := origPoint.y + (ev.localY - sp.y)
      setCrosshairPosition st newX newY
  | none =>
    if preventCrosshairMove st env then .noop st
    else setCrosshairPosition st ev.localX ev.localY

/-- The scroll section of `pressedMouseMoveEvent` (lines 350–419),
applied to the controller state left by the crosshair section. -/
def pressedMoveScrollPhase (pane : Pane) (env : Env) (ev : TouchMouseEvent)
    (st1 : ControllerState) : HandlerResult :=
  if env.timeScaleIsEmpty then .noop st1
  else
    let scrollOptions := env.options.handleScroll
    let kineticScrollOptions := env.options.kineticScroll
    if (¬ scrollOptions.pressedMouseMove ∨ ev.type = EvKind.touch) ∧
        ((¬ scrollOptions.horzTouchDrag ∧ ¬ scrollOptions.vertTouchDrag) ∨
          ev.type = EvKind.mouse) then
      .noop st1
    else
      let now := env.now
      let startPos : StartScrollPosition :=
        ⟨ev.clientX, ev.clientY, now, ev.localX, ev.localY⟩
      let st2 :=
        if st1.startScrollingPos.isNone ∧ ¬ preventScroll st1 env then
          { st1 with startScrollingPos := some startPos }
        else st1
      let st3 :=
        match st2.scrollXAnimation with
        | some a => { st2 with scrollXAnimation := some (a.addPosition ev.localX now) }
        | none => st2
      let stepStart : ControllerState × List ModelAction :=
        match st3.startScrollingPos with
        | some sp =>
          if ¬ st3.isScrolling ∧ (sp.x ≠ ev.clientX ∨ sp.y ≠ ev.clientY) then
            let st4 :=
              if st3.scrollXAnimation.isNone ∧
                  ((ev.type = EvKind.touch ∧ kineticScrollOptions.touch) ∨
                    (ev.type = EvKind.mouse ∧ kineticScrollOptions.mouse)) then
                let a0 := KineticAnimation.new minScrollSpeed maxScrollSpeed
                  dumpingCoeff scrollMinMove
                let a1 := a0.addPosition sp.localX sp.timestamp
                let a2 := a1.addPosition ev.localX now
                { st3 with scrollXAnimation := some a2 }
              else st3
            ({ st4 with isScrolling := true },
              (if ¬ pane.defaultPriceScaleIsEmpty then
                [ModelAction.startScrollPrice ev.localY] else [])
              ++ [ModelAction.startScrollTime ev.localX])
          else (st3, [])
        | none => (st3, [])
      let st5 := stepStart.1
      let scrollActs :=
        if st5.isScrolling then
          (if ¬ pane.defaultPriceScaleIsEmpty then
            [ModelAction.scrollPriceTo ev.localY] else [])
          ++ [ModelAction.scrollTimeTo ev.localX]
        else []
      ⟨st5, stepStart.2 ++ scrollActs, none, false⟩

/-- `PaneWidget.pressedMouseMoveEvent`: the crosshair section followed by
the scroll section. -/
def pressedMouseMoveEvent (st : ControllerState) (env : Env) (ev : TouchMouseEvent) :
    HandlerResult :=
  match st.state with
  | none => .noop st
  | some pane =>
    (pressedMoveCrosshairPhase st env ev).andThen (pressedMoveScrollPhase pane env ev)

/-- `PaneWidget._endScroll`: arms the kinetic animation with the release
sample and either finalizes immediately (no animation, or animation
already finished) or requests the first animation frame. -/
def endScroll (st : ControllerState) (env : Env) (ev : TouchMouseEvent) : HandlerResult :=
  if ¬ st.isScrolling then .noop st
  else
    let startAnimationTime := env.now
    let st1 :=
      match st.scrollXAnimation with
      | some a =>
        { st with scrollXAnimation := some (a.start ev.localX startAnimationTime) }
      | none => st
    match st1.scrollXAnimation with
    | none => finishScroll st1
    | some a =>
      if env.animFinished a startAnimationTime then finishScroll st1
      else ⟨st1, [], none, true⟩

/-- `PaneWidget.mouseUpEvent`. -/
def mouseUpEvent (st : ControllerState) (env : Env) (ev : TouchMouseEvent) :
    HandlerResult :=
  match st.state with
  | none => .noop st
  | some _ =>
    let st := { st with longTap := false }
    endScroll st env ev

/-- `PaneWidget._startTrackingMode`.  `_setCrosshairPosition` runs before
`_initCrosshairPosition` is recorded; on a null pane it raises after the
track point was already written. -/
def startTrackingMode (st : ControllerState) (env : Env)
    (startTrackPoint crossHairPosition : Point) : HandlerResult :=
  let st := { st with startTrackPoint := some startTrackPoint,
                      exitTrackingModeOnNextTry := false }
  (setCrosshairPosition st crossHairPosition.x crossHairPosition.y).andThen fun st1 =>
    .noop { st1 with initCrosshairPosition := some env.crosshairApplied }

/-- `PaneWidget.longTapEvent`: no pane-reference check. -/
def longTapEvent (st : ControllerState) (env : Env) (ev : TouchMouseEvent) :
    HandlerResult :=
  let st := { st with longTap := true }
  if st.startTrackPoint.isNone ∧ trackCrosshairOnlyAfterLongTap env then
    startTrackingMode st env ⟨ev.localX, ev.localY⟩ ⟨ev.localX, ev.localY⟩
  else .noop st

/-- `PaneWidget.mouseLeaveEvent`. -/
def mouseLeaveEvent (st : ControllerState) (env : Env) (ev : TouchMouseEvent) :
    HandlerResult :=
  match st.state with
  | none => .noop st
  | some _ =>
    (⟨st, [.setHoveredSource none], none, false⟩ : HandlerResult).andThen fun st1 =>
      if env.isMobile then .noop st1 else clearCrosshairPosition st1

/-- `PaneWidget.setSize`: negative dimensions raise before any mutation;
an unchanged size is a no-op; otherwise the stored size, both canvas
bindings and the pane cell styles are updated together. -/
def setSize (st : ControllerState) (size : Size) : Except String ControllerState :=
  if size.w < 0 ∨ size.h < 0 then
    .error "Try to set invalid size to PaneWidget"
  else if st.size = size then .ok st
  else .ok { st with size := size, canvasSize := size, topCanvasSize := size,
                     paneCellWidth := size.w, paneCellHeight := size.h }

/-- The state actually stored after a `setSize` call (an error leaves the
previous state in place). -/
def setSizeRun (st : ControllerState) (size : Size) : ControllerState :=
  match setSize st size with
  | .ok st1 => st1
  | .error _ => st

/-- One tick of the kinetic-scroll animation loop (`animationFn` inside
`_endScroll`): the captured animation object is checked for termination
before anything else; `requestedFrame` records the re-scheduling. -/
def kineticTick (scrollXAnimation : KineticAnimation) (env : Env)
    (st : ControllerState) : HandlerResult :=
  if scrollXAnimation.terminatedFlag then .noop st
  else
    let now := env.now
    let xAnimationFinished := env.animFinished scrollXAnimation now
    let step : Bool × ControllerState × List ModelAction :=
      if ¬ scrollXAnimation.terminatedFlag then
        let prevRightOffset := env.rightOffset
        let pos := env.animPosition scrollXAnimation now
        let newRightOffset := env.rightOffsetAfterScrollTo pos
        if prevRightOffset = newRightOffset then
          (true, { st with scrollXAnimation := none }, [ModelAction.scrollTimeTo pos])
        else (xAnimationFinished, st, [ModelAction.scrollTimeTo pos])
      else (xAnimationFinished, st, [])
    if step.1 then
      let r := finishScroll step.2.1
      ⟨r.st, step.2.2 ++ r.actions, r.error, false⟩
    else ⟨step.2.1, step.2.2, none, true⟩

/-- `PaneWidget.pinchStartEvent`. -/
def pinchStartEvent (st : ControllerState) (env : Env) : HandlerResult :=
  let st := { st with prevPinchScale := 1 }
  terminateKineticAnimation st env

/-- `PaneWidget.pinchEvent`. -/
def pinchEvent (st : ControllerState) (env : Env) (middlePointX scale : ℚ) :
    HandlerResult :=
  if ¬ env.options.handleScalePinch then .noop st
  else
    let zoomScale := (scale - st.prevPinchScale) * 5
    ⟨{ st with prevPinchScale := scale }, [.zoomTime middlePointX zoomScale], none, false⟩

/-- Whether an action mutates the viewport (time-axis or price-scale
scroll, or zoom). -/
def isViewportScrollAction : ModelAction → Bool
  | .startScrollPrice _ => true
  | .scrollPriceTo _ => true
  | .endScrollPrice => true
  | .startScrollTime _ => true
  | .scrollTimeTo _ => true
  | .endScrollTime => true
  | .zoomTime _ _ => true
  | _ => false

/-- Every crosshair position in the action list lies within
`[0, w − 1] × [0, h − 1]` for the given size. -/
def crosshairActionsClamped (sz : Size) (l : List ModelAction) : Prop :=
  ∀ x y : ℚ, ModelAction.setAndSaveCurrentPosition x y ∈ l →
    0 ≤ x ∧ x ≤ sz.w - 1 ∧ 0 ≤ y ∧ y ≤ sz.h - 1

/-- A pane with no sources, used by the concrete witnesses. -/
def samplePane : Pane := ⟨[], false⟩

/-- A baseline controller state: attached 100×100 pane, idle session. -/
def sampleState : ControllerState :=
  { state := some samplePane, size := ⟨100, 100⟩, canvasSize := ⟨100, 100⟩,
    topCanvasSize := ⟨100, 100⟩, paneCellWidth := 100, paneCellHeight := 100,
    startScrollingPos := none, isScrolling := false, longTap := false,
    startTrackPoint := none, exitTrackingModeOnNextTry := false,
    initCrosshairPosition := none, scrollXAnimation := none, prevPinchScale := 0 }

/-- The baseline state after its pane has been destroyed. -/
def detachedState : ControllerState := { sampleState with state := none }

/-- The baseline state in tracking mode: track start (10, 10), crosshair
position (50, 50) recorded at track start. -/
def trackingState : ControllerState :=
  { sampleState with startTrackPoint := some ⟨10, 10⟩,
                     initCrosshairPosition := some ⟨50, 50⟩ }

/-- The baseline state with the degenerate 0×0 size a freshly constructed
widget has before its first `setSize`. -/
def zeroSizeState : ControllerState :=
  { sampleState with size := ⟨0, 0⟩ }

/-- A desktop environment with every interaction option enabled. -/
def sampleEnv : Env :=
  { isMobile := false, mobileTouch := false,
    options := { handleScroll := ⟨true, true, true⟩,
                 kineticScroll := ⟨true, true⟩, handleScalePinch := true },
    timeScaleIsEmpty := false, now := 0, crosshairApplied := ⟨50, 50⟩,
    crosshairAppliedIndex := some 1, clickedHasListeners := false,
    animFinished := fun _ _ => false, animPosition := fun _ _ => 0,
    rightOffset := 0, rightOffsetAfterScrollTo := fun x => x }

/-- A touch-primary (mobile) environment. -/
def mobileEnv : Env := { sampleEnv with isMobile := true, mobileTouch := true }

/-- The desktop environment with `handleScroll.pressedMouseMove` disabled. -/
def noPressedMouseMoveEnv : Env :=
  { sampleEnv with options :=
      { sampleEnv.options with handleScroll :=
          { sampleEnv.options.handleScroll with pressedMouseMove := false } } }

/-- A mouse event at local (20, 30). -/
def sampleEvent : TouchMouseEvent := ⟨20, 30, 120, 130, .mouse⟩

/-- A touch event at local (20, 30). -/
def touchEvent : TouchMouseEvent := ⟨20, 30, 120, 130, .touch⟩

/-- A touch drag sample far to the right: local (200, 10). -/
def farRightEvent : TouchMouseEvent := ⟨200, 10, 300, 310, .touch⟩

/-- A terminated kinetic animation. -/
def terminatedAnim : KineticAnimation :=
  (KineticAnimation.new minScrollSpeed maxScrollSpeed dumpingCoeff scrollMinMove).terminate

/-- A renderer claiming every point with payload `n`. -/
def claimRenderer (n : Nat) : PaneRenderer := ⟨some fun _ _ => some n⟩

/-- A view claiming every point with payload `n`. -/
def claimView (n : Nat) : PaneView := ⟨fun _ _ => some (claimRenderer n), false, false⟩

/-- A view resolving to no renderer (skipped by hit testing). -/
def noRendererView : PaneView := ⟨fun _ _ => none, false, false⟩

/-- Two overlapping sources, both claiming every point; the first source's
first view has no renderer. -/
def overlapPane : Pane :=
  ⟨[⟨[noRendererView, claimView 1]⟩, ⟨[claimView 2]⟩], false⟩

/-- The baseline state attached to the overlapping pane. -/
def overlapState : ControllerState := { sampleState with state := some overlapPane }

example : buildPath sampleAreaData ⟨0, 3⟩ =
  [.moveTo ⟨1, 5⟩, .lineTo ⟨1, 7⟩, .lineTo ⟨2, 9⟩, .lineTo ⟨2, 5⟩, .lineTo ⟨1, 5⟩,
   .closePath] := by decide

theorem getLast?_cons_cons_append {α : Type} (p q a b : α) (w : List α) :
    (p :: q :: (w ++ [a, b])).getLast? = some b := by
  rw [show p :: q :: (w ++ [a, b]) = (p :: q :: w ++ [a]) ++ [b] by simp]
  exact List.getLast?_concat _

/-- C3 (amended): for at least two items and a visible range whose adjusted
start `max(from, 1)` is below `to`, the generated path starts at the
baseline anchor `(x[from'], y[0])`, drops to item `from'`, walks the
interpolation blocks of the indices `from' + 1, …, to - 1` in ascending
order (each block ends at its item, so every adjusted-range index is
visited exactly once), closes back to the baseline, and its first vertex
equals its last vertex.  A visible-range start of 0 is advanced to 1, so
index 0 only anchors the baseline. -/
theorem area_path_closed_walks_adjusted_range
    (d : PaneRendererAreaData) (vr : SeriesItemsIndexesRange)
    (hvr : d.visibleRange = some vr) (hlen : 2 ≤ d.items.length)
    (hto : vr.to_ ≤ d.items.length) (hf : advancedFrom vr < vr.to_) :
    buildPath d vr =
      PathCmd.moveTo ⟨(itemAt d.items (advancedFrom vr)).x, (itemAt d.items 0).y⟩ ::
      PathCmd.lineTo ⟨(itemAt d.items (advancedFrom vr)).x, (itemAt d.items (advancedFrom vr)).y⟩ ::
      ((List.range' (advancedFrom vr + 1) (vr.to_ - (advancedFrom vr + 1))).flatMap
          (segTo d.items d.lineType)
        ++ [PathCmd.lineTo ⟨(itemAt d.items (vr.to_ - 1)).x, (itemAt d.items 0).y⟩,
            PathCmd.lineTo ⟨(itemAt d.items (advancedFrom vr)).x, (itemAt d.items 0).y⟩,
            PathCmd.closePath])
    ∧ (pathPoints (buildPath d vr)).head? = (pathPoints (buildPath d vr)).getLast? := by
  have h1 : ¬ d.items.length = 1 := by omega
  have hpath : buildPath d vr =
      PathCmd.moveTo ⟨(itemAt d.items (advancedFrom vr)).x, (itemAt d.items 0).y⟩ ::
      PathCmd.lineTo ⟨(itemAt d.items (advancedFrom vr)).x, (itemAt d.items (advancedFrom vr)).y⟩ ::
      ((List.range' (advancedFrom vr + 1) (vr.to_ - (advancedFrom vr + 1))).flatMap
          (segTo d.items d.lineType)
        ++ [PathCmd.lineTo ⟨(itemAt d.items (vr.to_ - 1)).x, (itemAt d.items 0).y⟩,
            PathCmd.lineTo ⟨(itemAt d.items (advancedFrom vr)).x, (itemAt d.items 0).y⟩,
            PathCmd.closePath]) := by
    simp only [buildPath, walkLine, advancedFrom] at hf ⊢
    rw [if_neg h1, if_pos hf]
    simp
  refine ⟨hpath, ?_⟩
  rw [hpath]
  simp only [pathPoints, List.filterMap_cons, List.filterMap_append, List.filterMap_nil,
    PathCmd.point?, List.head?_cons]
  rw [show ((List.range' (advancedFrom vr + 1) (vr.to_ - (advancedFrom vr + 1))).flatMap
        (segTo d.items d.lineType)).filterMap PathCmd.point? ++
        ⟨(itemAt d.items (vr.to_ - 1)).x, (itemAt d.items 0).y⟩ ::
        ⟨(itemAt d.items (advancedFrom vr)).x, (itemAt d.items 0).y⟩ :: ([] : List Point) =
      ((List.range' (advancedFrom vr + 1) (vr.to_ - (advancedFrom vr + 1))).flatMap
        (segTo d.items d.lineType)).filterMap PathCmd.point? ++
        [(⟨(itemAt d.items (vr.to_ - 1)).x, (itemAt d.items 0).y⟩ : Point),
         ⟨(itemAt d.items (advancedFrom vr)).x, (itemAt d.items 0).y⟩] from rfl]
  rw [getLast?_cons_cons_append]

/-- C3 witness: the amended-claim theorem applied to a concrete data set. -/
theorem area_path_closed_walks_adjusted_range_witness :
    (pathPoints (buildPath sampleAreaData ⟨0, 3⟩)).head? =
      (pathPoints (buildPath sampleAreaData ⟨0, 3⟩)).getLast? :=
  (area_path_closed_walks_adjusted_range sampleAreaData ⟨0, 3⟩ rfl (by decide)
    (by decide) (by decide)).2

/-- C3 counterexample: with two items and visible range `[0, 1)`, the
advanced start (1) is not below `to` (1), the closing segments are
skipped, and the generated path's first vertex differs from its last
vertex — the path is not closed, and index 0 (the only index of the
visible range) is not walked. -/
theorem area_path_range_zero_one_not_closed :
    2 ≤ areaRangeZeroOneData.items.length ∧
    areaRangeZeroOneData.visibleRange = some ⟨0, 1⟩ ∧
    (pathPoints (buildPath areaRangeZeroOneData ⟨0, 1⟩)).head? ≠
      (pathPoints (buildPath areaRangeZeroOneData ⟨0, 1⟩)).getLast? := by
  decide

/-- C8: for a single item, the generated shape is the degenerate slab
`moveTo (x−w/2, y), lineTo (x−w/2, y), lineTo (x+w/2, y), lineTo (x+w/2, y)`:
every vertex carries the item's y, the x-extent is exactly the bar width,
and the x-extent is centered on the item's x. -/
theorem area_single_point_slab
    (d : PaneRendererAreaData) (vr : SeriesItemsIndexesRange)
    (hvr : d.visibleRange = some vr) (hlen : d.items.length = 1) :
    buildPath d vr =
      [PathCmd.moveTo ⟨(itemAt d.items 0).x - d.barWidth / 2, (itemAt d.items 0).y⟩,
       PathCmd.lineTo ⟨(itemAt d.items 0).x - d.barWidth / 2, (itemAt d.items 0).y⟩,
       PathCmd.lineTo ⟨(itemAt d.items 0).x + d.barWidth / 2, (itemAt d.items 0).y⟩,
       PathCmd.lineTo ⟨(itemAt d.items 0).x + d.barWidth / 2, (itemAt d.items 0).y⟩,
       PathCmd.closePath]
    ∧ (∀ q ∈ pathPoints (buildPath d vr), q.y = (itemAt d.items 0).y)
    ∧ ((itemAt d.items 0).x + d.barWidth / 2) - ((itemAt d.items 0).x - d.barWidth / 2)
        = d.barWidth
    ∧ (((itemAt d.items 0).x - d.barWidth / 2) + ((itemAt d.items 0).x + d.barWidth / 2)) / 2
        = (itemAt d.items 0).x := by
  have hpath : buildPath d vr =
      [PathCmd.moveTo ⟨(itemAt d.items 0).x - d.barWidth / 2, (itemAt d.items 0).y⟩,
       PathCmd.lineTo ⟨(itemAt d.items 0).x - d.barWidth / 2, (itemAt d.items 0).y⟩,
       PathCmd.lineTo ⟨(itemAt d.items 0).x + d.barWidth / 2, (itemAt d.items 0).y⟩,
       PathCmd.lineTo ⟨(itemAt d.items 0).x + d.barWidth / 2, (itemAt d.items 0).y⟩,
       PathCmd.closePath] := by
    simp only [buildPath]
    rw [if_pos hlen]
  refine ⟨hpath, ?_, by ring, by ring⟩
  rw [hpath]
  simp [pathPoints, PathCmd.point?]

/-- C8 witness: the slab theorem applied to a concrete single-point input. -/
theorem area_single_point_slab_witness :
    buildPath singlePointAreaData ⟨0, 1⟩ =
      [PathCmd.moveTo ⟨(itemAt singlePointAreaData.items 0).x - singlePointAreaData.barWidth / 2,
          (itemAt singlePointAreaData.items 0).y⟩,
       PathCmd.lineTo ⟨(itemAt singlePointAreaData.items 0).x - singlePointAreaData.barWidth / 2,
          (itemAt singlePointAreaData.items 0).y⟩,
       PathCmd.lineTo ⟨(itemAt singlePointAreaData.items 0).x + singlePointAreaData.barWidth / 2,
          (itemAt singlePointAreaData.items 0).y⟩,
       PathCmd.lineTo ⟨(itemAt singlePointAreaData.items 0).x + singlePointAreaData.barWidth / 2,
          (itemAt singlePointAreaData.items 0).y⟩,
       PathCmd.closePath] :=
  (area_single_point_slab singlePointAreaData ⟨0, 1⟩ rfl (by decide)).1

/-- C9: whenever the renderer draws, the fill gradient is linear and
vertical, spanning `y[0] − bottom/3` to `y[0] + bottom/3`, with exactly
four stops at offsets 0, 1/2, 1/2, 1 (the two middle colors meet at the
midpoint); null data, an empty item list, or a null visible range draw
nothing and raise no error. -/
theorem area_draw_gradient_and_noop :
    drawImpl none = none
    ∧ (∀ d : PaneRendererAreaData, d.items = [] → drawImpl (some d) = none)
    ∧ (∀ d : PaneRendererAreaData, d.visibleRange = none → drawImpl (some d) = none)
    ∧ (∀ (d : PaneRendererAreaData) (vr : SeriesItemsIndexesRange),
        d.visibleRange = some vr → d.items ≠ [] →
        drawImpl (some d) = some
          { style :=
              { lineCap := "butt", lineJoin := "round", strokeStyle := d.lineColor,
                lineWidth := 1, lineStyle := d.lineStyle }
            path := buildPath d vr
            gradient :=
              { x0 := 0, y0 := (itemAt d.items 0).y - d.bottom / 3,
                x1 := 0, y1 := (itemAt d.items 0).y + d.bottom / 3,
                stops :=
                  [(0, d.topColor), (1/2, d.topMiddleColor),
                   (1/2, d.bottomMiddleColor), (1, d.bottomColor)] } }) := by
  refine ⟨rfl, ?_, ?_, ?_⟩
  · intro d hd
    simp [drawImpl, hd]
  · intro d hd
    have : d.items.length = 0 ∨ ¬ d.items.length = 0 := by omega
    rcases this with h | h <;> simp [drawImpl, hd, h]
  · intro d vr hvr hne
    have h : ¬ d.items.length = 0 := by
      simpa [List.length_eq_zero] using hne
    simp [drawImpl, h, hvr]

/-- C9 witness: the gradient characterization applied to a concrete input. -/
theorem area_draw_gradient_witness :
    drawImpl (some sampleAreaData) = some
      { style :=
          { lineCap := "butt", lineJoin := "round", strokeStyle := sampleAreaData.lineColor,
            lineWidth := 1, lineStyle := sampleAreaData.lineStyle }
        path := buildPath sampleAreaData ⟨0, 3⟩
        gradient :=
          { x0 := 0, y0 := (itemAt sampleAreaData.items 0).y - sampleAreaData.bottom / 3,
            x1 := 0, y1 := (itemAt sampleAreaData.items 0).y + sampleAreaData.bottom / 3,
            stops :=
              [(0, sampleAreaData.topColor), (1/2, sampleAreaData.topMiddleColor),
               (1/2, sampleAreaData.bottomMiddleColor), (1, sampleAreaData.bottomColor)] } } :=
  area_draw_gradient_and_noop.2.2.2 sampleAreaData ⟨0, 3⟩ rfl (by decide)


/-- C4: `setSize` with a negative width or height raises immediately and
synchronously, and the controller keeps its prior state: the stored size,
both canvas bindings and the pane cell styles are untouched. -/
theorem setSize_negative_raises (st : ControllerState) (size : Size)
    (h : size.w < 0 ∨ size.h < 0) :
    setSize st size = Except.error "Try to set invalid size to PaneWidget"
    ∧ setSizeRun st size = st := by
  constructor
  · simp [setSize, h]
  · simp [setSizeRun, setSize, h]

/-- C4 witness: a negative width at a concrete state. -/
theorem setSize_negative_raises_witness :
    setSize sampleState ⟨-1, 50⟩ = Except.error "Try to set invalid size to PaneWidget"
    ∧ setSizeRun sampleState ⟨-1, 50⟩ = sampleState :=
  setSize_negative_raises sampleState ⟨-1, 50⟩ (Or.inl (by norm_num))

/-- C5: a kinetic-scroll animation tick whose animation has been
terminated is dropped at its first check: no model action is performed, no
controller state is mutated, no error is raised, and no further frame is
requested. -/
theorem kineticTick_terminated_noop (a : KineticAnimation) (env : Env)
    (st : ControllerState) (h : a.terminatedFlag = true) :
    kineticTick a env st = ⟨st, [], none, false⟩ := by
  simp [kineticTick, h, HandlerResult.noop]

/-- C5 witness: the terminated-tick theorem at a concrete state. -/
theorem kineticTick_terminated_noop_witness :
    kineticTick terminatedAnim sampleEnv sampleState = ⟨sampleState, [], none, false⟩ :=
  kineticTick_terminated_noop terminatedAnim sampleEnv sampleState rfl

/-- C1 (amended): with a detached (null) pane reference, the enter, move,
pressed-move, click, up and leave handlers are exact silent no-ops (state
unchanged, no model action, no error); the down handler performs no model
action and raises no error but does reset the long-tap flag and re-arm the
exit-tracking flag before its pane check; the long-tap handler performs no
model action but has no pane check at all: it always sets the long-tap
flag, and on a track-after-long-tap device with no active track point it
enters tracking mode and raises through the crosshair update. -/
theorem detached_pane_handlers (st : ControllerState) (env : Env)
    (ev : TouchMouseEvent) (h : st.state = none) :
    mouseEnterEvent st env ev = ⟨st, [], none, false⟩
    ∧ mouseMoveEvent st env ev = ⟨st, [], none, false⟩
    ∧ pressedMouseMoveEvent st env ev = ⟨st, [], none, false⟩
    ∧ mouseClickEvent st env ev = ⟨st, [], none, false⟩
    ∧ mouseUpEvent st env ev = ⟨st, [], none, false⟩
    ∧ mouseLeaveEvent st env ev = ⟨st, [], none, false⟩
    ∧ mouseDownEvent st env ev =
        ⟨{ st with longTap := false,
                   exitTrackingModeOnNextTry := st.startTrackPoint.isSome },
         [], none, false⟩
    ∧ (longTapEvent st env ev).actions = []
    ∧ ((st.startTrackPoint = none ∧ trackCrosshairOnlyAfterLongTap env = true) →
        ((longTapEvent st env ev).error).isSome = true) := by
  refine ⟨?_, ?_, ?_, ?_, ?_, ?_, ?_, ?_, ?_⟩
  · simp [mouseEnterEvent, h, HandlerResult.noop]
  · simp [mouseMoveEvent, h, HandlerResult.noop]
  · simp [pressedMouseMoveEvent, h, HandlerResult.noop]
  · simp [mouseClickEvent, h, HandlerResult.noop]
  · simp [mouseUpEvent, h, HandlerResult.noop]
  · simp [mouseLeaveEvent, h, HandlerResult.noop]
  · simp [mouseDownEvent, h, HandlerResult.noop]
  · simp only [longTapEvent]
    split
    · simp [startTrackingMode, setCrosshairPosition, h, HandlerResult.andThen]
    · simp [HandlerResult.noop]
  · intro ⟨htp, htr⟩
    simp only [longTapEvent]
    rw [if_pos (by simp [htp, htr])]
    simp [startTrackingMode, setCrosshairPosition, h, HandlerResult.andThen]

/-- C1 witness: the detached-pane theorem at a concrete state. -/
theorem detached_pane_handlers_witness :
    mouseEnterEvent detachedState sampleEnv sampleEvent =
      ⟨detachedState, [], none, false⟩ :=
  (detached_pane_handlers detachedState sampleEnv sampleEvent rfl).1

/-- C1 counterexample: with a detached pane on a touch-primary device and
no active track point, `longTapEvent` is not a silent no-op: it raises an
error (through `ensureNotNull(this._state)` inside the tracking-mode
crosshair update). -/
theorem longTap_detached_raises :
    detachedState.state = none
    ∧ ((longTapEvent detachedState mobileEnv touchEvent).error).isSome = true := by
  constructor
  · rfl
  · rfl

theorem correctXCoord_eq_of_bounds (st : ControllerState) (x : ℚ)
    (h0 : 0 ≤ x) (h1 : x ≤ st.size.w - 1) : correctXCoord st x = x := by
  rw [correctXCoord, min_eq_left h1, max_eq_right h0]

theorem correctYCoord_eq_of_bounds (st : ControllerState) (y : ℚ)
    (h0 : 0 ≤ y) (h1 : y ≤ st.size.h - 1) : correctYCoord st y = y := by
  rw [correctYCoord, min_eq_left h1, max_eq_right h0]

/-- C6 (amended): while tracking mode is active, a pressed-move at (x, y)
moves the crosshair to the track-start crosshair position offset by the
pointer's delta from the drag start — clamped into the pane bounds; it
moves by exactly (dx, dy) whenever the offset target lies within
`[0, w − 1] × [0, h − 1]`.  The position depends on the pointer only
through its delta. -/
theorem pressedMove_tracking_moves_by_clamped_delta
    (st : ControllerState) (env : Env) (ev : TouchMouseEvent) (pane : Pane) (sp c : Point)
    (hst : st.state = some pane) (htp : st.startTrackPoint = some sp)
    (hic : st.initCrosshairPosition = some c) :
    (pressedMouseMoveEvent st env ev).actions.head? =
      some (ModelAction.setAndSaveCurrentPosition
        (correctXCoord st (c.x + (ev.localX - sp.x)))
        (correctYCoord st (c.y + (ev.localY - sp.y))))
    ∧ (0 ≤ c.x + (ev.localX - sp.x) → c.x + (ev.localX - sp.x) ≤ st.size.w - 1 →
       0 ≤ c.y + (ev.localY - sp.y) → c.y + (ev.localY - sp.y) ≤ st.size.h - 1 →
       (pressedMouseMoveEvent st env ev).actions.head? =
         some (ModelAction.setAndSaveCurrentPosition
           (c.x + (ev.localX - sp.x)) (c.y + (ev.localY - sp.y)))) := by
  have hphase : pressedMoveCrosshairPhase st env ev =
      ⟨{ st with exitTrackingModeOnNextTry := false },
       [ModelAction.setAndSaveCurrentPosition
          (correctXCoord st (c.x + (ev.localX - sp.x)))
          (correctYCoord st (c.y + (ev.localY - sp.y)))], none, false⟩ := by
    simp [pressedMoveCrosshairPhase, htp, hic, setCrosshairPosition, hst,
      correctXCoord, correctYCoord]
  have hhead : (pressedMouseMoveEvent st env ev).actions.head? =
      some (ModelAction.setAndSaveCurrentPosition
        (correctXCoord st (c.x + (ev.localX - sp.x)))
        (correctYCoord st (c.y + (ev.localY - sp.y)))) := by
    simp only [pressedMouseMoveEvent, hst, hphase, HandlerResult.andThen]
    simp
  refine ⟨hhead, fun h0 h1 h2 h3 => ?_⟩
  rw [hhead, correctXCoord_eq_of_bounds st _ h0 h1, correctYCoord_eq_of_bounds st _ h2 h3]

/-- C6 witness: tracked drag from (10, 10) to (20, 30) with track-start
crosshair (50, 50) sends the crosshair to exactly (60, 70). -/
theorem pressedMove_tracking_moves_by_delta_witness :
    (pressedMouseMoveEvent trackingState sampleEnv sampleEvent).actions.head? =
      some (ModelAction.setAndSaveCurrentPosition (50 + (20 - 10)) (50 + (30 - 10))) :=
  (pressedMove_tracking_moves_by_clamped_delta trackingState sampleEnv sampleEvent
    samplePane ⟨10, 10⟩ ⟨50, 50⟩ rfl rfl rfl).2
    (by norm_num [sampleEvent]) (by norm_num [sampleEvent, trackingState, sampleState])
    (by norm_num [sampleEvent]) (by norm_num [sampleEvent, trackingState, sampleState])

/-- C6 counterexample: a tracked pressed-move whose offset target (240, 50)
lies outside the 100×100 pane sends the clamped position (99, 50), not the
exact delta target `50 + (200 − 10) = 240`. -/
theorem pressedMove_tracking_clamped_counterexample :
    trackingState.startTrackPoint = some ⟨10, 10⟩
    ∧ trackingState.initCrosshairPosition = some ⟨50, 50⟩
    ∧ (pressedMouseMoveEvent trackingState sampleEnv farRightEvent).actions.head? =
        some (ModelAction.setAndSaveCurrentPosition 99 50)
    ∧ (99 : ℚ) ≠ 50 + (200 - 10) := by
  refine ⟨rfl, rfl, ?_, by norm_num⟩
  norm_num [pressedMouseMoveEvent, pressedMoveScrollPhase, pressedMoveCrosshairPhase,
    setCrosshairPosition,
    correctXCoord, correctYCoord, trackingState, sampleState, samplePane, sampleEnv,
    farRightEvent, HandlerResult.andThen, HandlerResult.noop, preventScroll,
    preventCrosshairMove, trackCrosshairOnlyAfterLongTap, min_def, max_def]

theorem pressedMoveCrosshairPhase_props (st : ControllerState) (env : Env)
    (ev : TouchMouseEvent) :
    (∀ a ∈ (pressedMoveCrosshairPhase st env ev).actions, isViewportScrollAction a = false)
    ∧ (pressedMoveCrosshairPhase st env ev).st.scrollXAnimation = st.scrollXAnimation
    ∧ (pressedMoveCrosshairPhase st env ev).st.startScrollingPos = st.startScrollingPos
    ∧ (pressedMoveCrosshairPhase st env ev).st.isScrolling = st.isScrolling := by
  rcases h1 : st.startTrackPoint with _ | sp
  · simp only [pressedMoveCrosshairPhase, h1]
    split
    · simp [HandlerResult.noop]
    · rcases h2 : st.state with _ | p <;>
        simp [setCrosshairPosition, h2, isViewportScrollAction, HandlerResult.noop]
  · simp only [pressedMoveCrosshairPhase, h1]
    rcases h2 : st.initCrosshairPosition with _ | c
    · simp [h2]
    · rcases h3 : st.state with _ | p <;>
        simp [setCrosshairPosition, h2, h3, isViewportScrollAction]

/-- C7: a mouse pressed-move with `handleScroll.pressedMouseMove` disabled
mutates no viewport state: every performed action is a non-scroll action
(no time-axis or price-scale scroll is started or continued), no kinetic
animation is created, and the scroll-session state is untouched. -/
theorem pressedMove_mouse_disabled_no_viewport_mutation
    (st : ControllerState) (env : Env) (ev : TouchMouseEvent)
    (hev : ev.type = EvKind.mouse)
    (hopt : env.options.handleScroll.pressedMouseMove = false) :
    (∀ a ∈ (pressedMouseMoveEvent st env ev).actions, isViewportScrollAction a = false)
    ∧ (pressedMouseMoveEvent st env ev).st.scrollXAnimation = st.scrollXAnimation
    ∧ (pressedMouseMoveEvent st env ev).st.startScrollingPos = st.startScrollingPos
    ∧ (pressedMouseMoveEvent st env ev).st.isScrolling = st.isScrolling := by
  rcases hst : st.state with _ | pane
  · simp [pressedMouseMoveEvent, hst, HandlerResult.noop]
  · obtain ⟨hacts, hanim, hpos, hscr⟩ := pressedMoveCrosshairPhase_props st env ev
    have hres : pressedMouseMoveEvent st env ev =
        (pressedMoveCrosshairPhase st env ev).andThen HandlerResult.noop := by
      simp only [pressedMouseMoveEvent, hst]
      congr 1
      funext st1
      simp [pressedMoveScrollPhase, hopt, hev]
    rw [hres]
    rcases herr : (pressedMoveCrosshairPhase st env ev).error with _ | e
    · simp only [HandlerResult.andThen, herr, HandlerResult.noop, List.append_nil]
      exact ⟨hacts, hanim, hpos, hscr⟩
    · simp only [HandlerResult.andThen, herr]
      exact ⟨hacts, hanim, hpos, hscr⟩

/-- C7 witness: the theorem at a concrete state and environment. -/
theorem pressedMove_mouse_disabled_witness :
    (∀ a ∈ (pressedMouseMoveEvent sampleState noPressedMouseMoveEnv sampleEvent).actions,
      isViewportScrollAction a = false)
    ∧ (pressedMouseMoveEvent sampleState noPressedMouseMoveEnv sampleEvent).st.scrollXAnimation
        = sampleState.scrollXAnimation :=
  ⟨(pressedMove_mouse_disabled_no_viewport_mutation sampleState noPressedMouseMoveEnv
      sampleEvent rfl rfl).1,
   (pressedMove_mouse_disabled_no_viewport_mutation sampleState noPressedMouseMoveEnv
      sampleEvent rfl rfl).2.1⟩

theorem findSome?_map_comp {α β γ : Type} (l : List α) (f : α → Option β) (g : β → γ) :
    (l.findSome? f).map g = l.findSome? fun a => (f a).map g := by
  induction l with
  | nil => rfl
  | cons a rest ih =>
    cases hfa : f a <;> simp [List.findSome?_cons, hfa, ih]

theorem hitTestPaneView_eq_findSome (sz : Size) (x y : ℚ) (views : List PaneView) :
    hitTestPaneView sz x y views =
      views.findSome? fun v => (viewClaimResult sz x y v).map
        fun obj => (⟨v, obj⟩ : HitTestPaneViewResult) := by
  induction views with
  | nil => rfl
  | cons v rest ih =>
    rcases hr : v.renderer sz.h sz.w with _ | r
    · simp [hitTestPaneView, viewClaimResult, hr, List.findSome?_cons, ih]
    · rcases hh : r.hitTest with _ | ht
      · simp [hitTestPaneView, viewClaimResult, hr, hh, List.findSome?_cons, ih]
      · rcases hxy : ht x y with _ | obj <;>
          simp [hitTestPaneView, viewClaimResult, hr, hh, hxy, List.findSome?_cons, ih]

theorem hitTestSources_eq_findSome (sz : Size) (x y : ℚ) (sources : List DataSource) :
    hitTestSources sz x y sources =
      sources.findSome? fun s => (hitTestPaneView sz x y s.paneViews).map
        fun r => (⟨s, r.view, r.object⟩ : HitTestResult) := by
  induction sources with
  | nil => rfl
  | cons s rest ih =>
    rcases hs : hitTestPaneView sz x y s.paneViews with _ | r <;>
      simp [hitTestSources, hs, List.findSome?_cons, ih]

theorem hitTestPaneView_eq_none_iff (sz : Size) (x y : ℚ) (views : List PaneView) :
    hitTestPaneView sz x y views = none ↔
      ∀ v ∈ views, viewClaimResult sz x y v = none := by
  simp [hitTestPaneView_eq_findSome, List.findSome?_eq_none_iff]

theorem takeUntilHit_all_neg {α : Type} (p : α → Bool) (l : List α)
    (h : ∀ a ∈ l, p a = false) : takeUntilHit p l = l := by
  induction l with
  | nil => rfl
  | cons a rest ih =>
    rw [takeUntilHit, if_neg (by simp [h a (List.mem_cons_self a rest)]),
      ih fun b hb => h b (List.mem_cons_of_mem a hb)]

theorem takeUntilHit_append_neg {α : Type} (p : α → Bool) (l l' : List α)
    (h : ∀ a ∈ l, p a = false) :
    takeUntilHit p (l ++ l') = l ++ takeUntilHit p l' := by
  induction l with
  | nil => rfl
  | cons a rest ih =>
    rw [List.cons_append, takeUntilHit,
      if_neg (by simp [h a (List.mem_cons_self a rest)]),
      ih fun b hb => h b (List.mem_cons_of_mem a hb), List.cons_append]

theorem takeUntilHit_append_hit {α : Type} (p : α → Bool) (l l' : List α)
    (h : ∃ a ∈ l, p a = true) :
    takeUntilHit p (l ++ l') = takeUntilHit p l := by
  induction l with
  | nil => simp at h
  | cons a rest ih =>
    by_cases hpa : p a = true
    · rw [List.cons_append, takeUntilHit, if_pos hpa, takeUntilHit, if_pos hpa]
    · rw [List.cons_append, takeUntilHit, if_neg hpa, takeUntilHit, if_neg hpa]
      obtain ⟨b, hb, hpb⟩ := h
      rcases List.mem_cons.mp hb with rfl | hb'
      · exact absurd hpb hpa
      · rw [ih ⟨b, hb', hpb⟩]

theorem hitTestPaneViewVisited_eq (sz : Size) (x y : ℚ) (views : List PaneView) :
    hitTestPaneViewVisited sz x y views =
      takeUntilHit (fun v => (viewClaimResult sz x y v).isSome) views := by
  induction views with
  | nil => rfl
  | cons v rest ih =>
    rcases hr : v.renderer sz.h sz.w with _ | r
    · simp [hitTestPaneViewVisited, takeUntilHit, viewClaimResult, hr, ih]
    · rcases hh : r.hitTest with _ | ht
      · simp [hitTestPaneViewVisited, takeUntilHit, viewClaimResult, hr, hh, ih]
      · rcases hxy : ht x y with _ | obj <;>
          simp [hitTestPaneViewVisited, takeUntilHit, viewClaimResult, hr, hh, hxy, ih]

theorem hitTestSourcesVisited_eq (sz : Size) (x y : ℚ) (sources : List DataSource) :
    hitTestSourcesVisited sz x y sources =
      takeUntilHit (fun v => (viewClaimResult sz x y v).isSome)
        (sources.flatMap DataSource.paneViews) := by
  induction sources with
  | nil => rfl
  | cons s rest ih =>
    rw [List.flatMap_cons]
    rcases hs : hitTestPaneView sz x y s.paneViews with _ | r
    · have hall := (hitTestPaneView_eq_none_iff sz x y s.paneViews).mp hs
      have hallb : ∀ v ∈ s.paneViews,
          (fun v => (viewClaimResult sz x y v).isSome) v = false :=
        fun v hv => by simp [hall v hv]
      simp only [hitTestSourcesVisited, hs]
      rw [hitTestPaneViewVisited_eq, takeUntilHit_append_neg _ _ _ hallb,
        takeUntilHit_all_neg _ _ hallb, ih]
    · have hnn : ¬ hitTestPaneView sz x y s.paneViews = none := by simp [hs]
      rw [hitTestPaneView_eq_none_iff] at hnn
      push_neg at hnn
      obtain ⟨v, hv, hcl⟩ := hnn
      have hex : ∃ v ∈ s.paneViews,
          (fun v => (viewClaimResult sz x y v).isSome) v = true :=
        ⟨v, hv, by simp [Option.isSome_iff_ne_none, hcl]⟩
      simp only [hitTestSourcesVisited, hs]
      rw [hitTestPaneViewVisited_eq, takeUntilHit_append_hit _ _ _ hex]

/-- C2: `hitTest` returns the hit result of the first (source, view) pair
in front-to-back z-order whose view's renderer claims the point (the
reference formulation `hitTestSpec` follows the spec's words); the views
actually queried form exactly the z-order prefix up to and including the
first claiming view, so nothing is queried after a positive match; it
returns none exactly when no view claims the point; and views without a
renderer or without hit-test capability are skipped (they contribute no
claim and cause no error). -/
theorem hitTest_first_match (st : ControllerState) (pane : Pane) (x y : ℚ)
    (h : st.state = some pane) :
    hitTest st x y = hitTestSpec pane st.size x y
    ∧ hitTestVisited st x y =
        takeUntilHit (fun v => (viewClaimResult st.size x y v).isSome) (allPaneViews pane)
    ∧ (hitTest st x y = none ↔
        ∀ v ∈ allPaneViews pane, viewClaimResult st.size x y v = none) := by
  refine ⟨?_, ?_, ?_⟩
  · simp only [hitTest, h, hitTestSpec]
    rw [hitTestSources_eq_findSome]
    congr 1
    funext s
    rw [hitTestPaneView_eq_findSome, findSome?_map_comp]
    congr 1
    funext v
    cases viewClaimResult st.size x y v <;> rfl
  · simp only [hitTestVisited, h, allPaneViews]
    exact hitTestSourcesVisited_eq _ _ _ _
  · simp only [hitTest, h, allPaneViews]
    rw [hitTestSources_eq_findSome, List.findSome?_eq_none_iff]
    constructor
    · intro hall v hv
      rw [List.mem_flatMap] at hv
      obtain ⟨s, hsmem, hvmem⟩ := hv
      have hsx := hall s hsmem
      rw [Option.map_eq_none', hitTestPaneView_eq_none_iff] at hsx
      exact hsx v hvmem
    · intro hall s hsmem
      rw [Option.map_eq_none', hitTestPaneView_eq_none_iff]
      intro v hv
      exact hall v (List.mem_flatMap.mpr ⟨s, hsmem, hv⟩)

/-- C2 witness: the theorem at the concrete overlapping pane. -/
theorem hitTest_first_match_witness :
    hitTest overlapState 5 5 = hitTestSpec overlapPane overlapState.size 5 5 :=
  (hitTest_first_match overlapState overlapPane 5 5 rfl).1

example : (hitTest overlapState 5 5).map HitTestResult.object = some 1 := rfl

example : (hitTest overlapState 5 5).map HitTestResult.object ≠ some 2 := by
  simp only [show (hitTest overlapState 5 5).map HitTestResult.object = some 1 from rfl]
  decide

theorem clamped_nil (sz : Size) : crosshairActionsClamped sz [] := by
  intro x y h
  simp at h

theorem clamped_append {sz : Size} {l1 l2 : List ModelAction}
    (h1 : crosshairActionsClamped sz l1) (h2 : crosshairActionsClamped sz l2) :
    crosshairActionsClamped sz (l1 ++ l2) := by
  intro x y hmem
  rcases List.mem_append.mp hmem with h | h
  exacts [h1 x y h, h2 x y h]

theorem correctXCoord_bounds (st : ControllerState) (x : ℚ) (h1 : 1 ≤ st.size.w) :
    0 ≤ correctXCoord st x ∧ correctXCoord st x ≤ st.size.w - 1 :=
  ⟨le_max_left _ _, max_le (by linarith) (min_le_right _ _)⟩

theorem correctYCoord_bounds (st : ControllerState) (y : ℚ) (h2 : 1 ≤ st.size.h) :
    0 ≤ correctYCoord st y ∧ correctYCoord st y ≤ st.size.h - 1 :=
  ⟨le_max_left _ _, max_le (by linarith) (min_le_right _ _)⟩

theorem setCrosshair_clamped (st : ControllerState) (x y : ℚ)
    (h1 : 1 ≤ st.size.w) (h2 : 1 ≤ st.size.h) :
    crosshairActionsClamped st.size (setCrosshairPosition st x y).actions := by
  rcases hs : st.state with _ | p
  · intro a b hmem
    simp [setCrosshairPosition, hs] at hmem
  · intro a b hmem
    simp only [setCrosshairPosition, hs, List.mem_singleton,
      ModelAction.setAndSaveCurrentPosition.injEq] at hmem
    obtain ⟨rfl, rfl⟩ := hmem
    obtain ⟨hx0, hx1⟩ := correctXCoord_bounds st x h1
    obtain ⟨hy0, hy1⟩ := correctYCoord_bounds st y h2
    exact ⟨hx0, hx1, hy0, hy1⟩

theorem andThen_clamped {sz : Size} {r : HandlerResult} {f : ControllerState → HandlerResult}
    (h1 : crosshairActionsClamped sz r.actions)
    (h2 : crosshairActionsClamped sz (f r.st).actions) :
    crosshairActionsClamped sz (r.andThen f).actions := by
  unfold HandlerResult.andThen
  rcases he : r.error with _ | e
  · exact clamped_append h1 h2
  · exact h1

theorem finishScroll_no_cross (sz : Size) (st : ControllerState) :
    crosshairActionsClamped sz (finishScroll st).actions := by
  intro x y hmem
  rcases hs : st.state with _ | p <;> simp [finishScroll, hs] at hmem

theorem terminateKineticAnimation_size (st : ControllerState) (env : Env) :
    (terminateKineticAnimation st env).st.size = st.size := by
  rcases hs : st.state with _ | p <;> rcases ha : st.scrollXAnimation with _ | a
  · simp [terminateKineticAnimation, HandlerResult.andThen, HandlerResult.noop, hs, ha]
  · by_cases hfin : env.animFinished a env.now = true <;>
      simp [terminateKineticAnimation, HandlerResult.andThen, HandlerResult.noop,
        finishScroll, hs, ha, hfin]
  · simp [terminateKineticAnimation, HandlerResult.andThen, HandlerResult.noop, hs, ha]
  · by_cases hfin : env.animFinished a env.now = true <;>
      simp [terminateKineticAnimation, HandlerResult.andThen, HandlerResult.noop,
        finishScroll, hs, ha, hfin]

theorem terminateKineticAnimation_no_cross (sz : Size) (st : ControllerState) (env : Env) :
    crosshairActionsClamped sz (terminateKineticAnimation st env).actions := by
  intro x y hmem
  rcases hs : st.state with _ | p <;> rcases ha : st.scrollXAnimation with _ | a
  · simp [terminateKineticAnimation, HandlerResult.andThen, HandlerResult.noop,
      hs, ha] at hmem
  · by_cases hfin : env.animFinished a env.now = true <;>
      simp [terminateKineticAnimation, HandlerResult.andThen, HandlerResult.noop,
        finishScroll, hs, ha, hfin] at hmem
  · simp [terminateKineticAnimation, HandlerResult.andThen, HandlerResult.noop,
      hs, ha] at hmem
  · by_cases hfin : env.animFinished a env.now = true <;>
      simp [terminateKineticAnimation, HandlerResult.andThen, HandlerResult.noop,
        finishScroll, hs, ha, hfin] at hmem

theorem mouseEnter_clamped (st : ControllerState) (env : Env) (ev : TouchMouseEvent)
    (h1 : 1 ≤ st.size.w) (h2 : 1 ≤ st.size.h) :
    crosshairActionsClamped st.size (mouseEnterEvent st env ev).actions := by
  rcases hs : st.state with _ | p
  · simp only [mouseEnterEvent, hs]
    exact clamped_nil _
  · simp only [mouseEnterEvent, hs]
    split
    · exact clamped_nil _
    · exact setCrosshair_clamped st _ _ h1 h2

theorem mouseLeave_clamped (st : ControllerState) (env : Env) (ev : TouchMouseEvent) :
    crosshairActionsClamped st.size (mouseLeaveEvent st env ev).actions := by
  intro x y hmem
  rcases hs : st.state with _ | p
  · simp [mouseLeaveEvent, hs, HandlerResult.noop] at hmem
  · cases hm : env.isMobile <;>
      simp [mouseLeaveEvent, hs, hm, HandlerResult.andThen, HandlerResult.noop,
        clearCrosshairPosition] at hmem

theorem mouseUp_clamped (st : ControllerState) (env : Env) (ev : TouchMouseEvent) :
    crosshairActionsClamped st.size (mouseUpEvent st env ev).actions := by
  intro x y hmem
  rcases hs : st.state with _ | p
  · simp [mouseUpEvent, hs, HandlerResult.noop] at hmem
  · simp only [mouseUpEvent, hs] at hmem
    cases hsc : st.isScrolling
    · simp [endScroll, hsc, HandlerResult.noop] at hmem
    · rcases ha : st.scrollXAnimation with _ | a
      · simp only [endScroll, hsc, ha, Bool.not_true, finishScroll] at hmem
        simp at hmem
      · by_cases hfin :
          env.animFinished (a.start ev.localX env.now) env.now = true <;>
          simp [endScroll, hsc, ha, hfin, finishScroll, hs] at hmem

theorem mouseClick_clamped (st : ControllerState) (env : Env) (ev : TouchMouseEvent) :
    crosshairActionsClamped st.size (mouseClickEvent st env ev).actions := by
  intro x y hmem
  rcases hs : st.state with _ | p
  · simp [mouseClickEvent, hs, HandlerResult.noop] at hmem
  · rcases hh : hitTest st ev.localX ev.localY with _ | r
    · by_cases hck : env.clickedHasListeners = true <;>
        by_cases hem : st.exitTrackingModeOnNextTry = true <;>
        simp [mouseClickEvent, hs, hh, hck, hem, HandlerResult.andThen,
          HandlerResult.noop, tryExitTrackingMode] at hmem
    · by_cases hvh : r.view.hasClickHandler = true <;>
        by_cases hck : env.clickedHasListeners = true <;>
        by_cases hem : st.exitTrackingModeOnNextTry = true <;>
        simp [mouseClickEvent, hs, hh, hvh, hck, hem, HandlerResult.andThen,
          HandlerResult.noop, tryExitTrackingMode] at hmem

theorem setCrosshair_clamped_to {sz : Size} (st : ControllerState) (x y : ℚ)
    (hsz : st.size = sz) (h1 : 1 ≤ sz.w) (h2 : 1 ≤ sz.h) :
    crosshairActionsClamped sz (setCrosshairPosition st x y).actions := by
  cases hsz
  exact setCrosshair_clamped st x y h1 h2

theorem mouseMove_clamped (st : ControllerState) (env : Env) (ev : TouchMouseEvent)
    (h1 : 1 ≤ st.size.w) (h2 : 1 ≤ st.size.h) :
    crosshairActionsClamped st.size (mouseMoveEvent st env ev).actions := by
  intro x y hmem
  rcases hs : st.state with _ | p
  · simp [mouseMoveEvent, hs, HandlerResult.noop] at hmem
  · cases hmt : env.mobileTouch
    · rcases hht : hitTest st ev.localX ev.localY with _ | r
      · by_cases hpc : preventCrosshairMove st env = true <;>
          simp [mouseMoveEvent, hs, hmt, hht, hpc, HandlerResult.andThen,
            HandlerResult.noop, clearCrosshairPosition, setCrosshairPosition] at hmem <;>
          (obtain ⟨rfl, rfl⟩ := hmem
           exact ⟨(correctXCoord_bounds st _ h1).1, (correctXCoord_bounds st _ h1).2,
             (correctYCoord_bounds st _ h2).1, (correctYCoord_bounds st _ h2).2⟩)
      · by_cases hmh : r.view.hasMoveHandler = true <;>
          by_cases hpc : preventCrosshairMove st env = true <;>
          simp [mouseMoveEvent, hs, hmt, hht, hpc, hmh, HandlerResult.andThen,
            HandlerResult.noop, clearCrosshairPosition, setCrosshairPosition] at hmem <;>
          (obtain ⟨rfl, rfl⟩ := hmem
           exact ⟨(correctXCoord_bounds st _ h1).1, (correctXCoord_bounds st _ h1).2,
             (correctYCoord_bounds st _ h2).1, (correctYCoord_bounds st _ h2).2⟩)
    · by_cases hpc : preventCrosshairMove st env = true <;>
        simp [mouseMoveEvent, hs, hmt, hpc, HandlerResult.andThen, HandlerResult.noop,
          clearCrosshairPosition] at hmem

theorem mouseDown_clamped (st : ControllerState) (env : Env) (ev : TouchMouseEvent)
    (h1 : 1 ≤ st.size.w) (h2 : 1 ≤ st.size.h) :
    crosshairActionsClamped st.size (mouseDownEvent st env ev).actions := by
  rcases hs : st.state with _ | p
  · simp only [mouseDownEvent, hs]
    exact clamped_nil _
  · simp only [mouseDownEvent, hs]
    apply andThen_clamped (terminateKineticAnimation_no_cross _ _ _)
    have hsz1 : (terminateKineticAnimation
        { st with state := some p, longTap := false,
                  exitTrackingModeOnNextTry := st.startTrackPoint.isSome } env).st.size
        = st.size := terminateKineticAnimation_size _ env
    split
    · exact clamped_nil _
    · split
      · exact clamped_nil _
      · refine setCrosshair_clamped_to _ _ _ ?_ h1 h2
        split
        · exact hsz1
        · exact hsz1

theorem longTap_clamped (st : ControllerState) (env : Env) (ev : TouchMouseEvent)
    (h1 : 1 ≤ st.size.w) (h2 : 1 ≤ st.size.h) :
    crosshairActionsClamped st.size (longTapEvent st env ev).actions := by
  simp only [longTapEvent]
  split
  · simp only [startTrackingMode]
    apply andThen_clamped
    · exact setCrosshair_clamped_to _ _ _ rfl h1 h2
    · exact clamped_nil _
  · exact clamped_nil _

theorem pressedMoveCrosshairPhase_clamped (st : ControllerState) (env : Env)
    (ev : TouchMouseEvent) (h1 : 1 ≤ st.size.w) (h2 : 1 ≤ st.size.h) :
    crosshairActionsClamped st.size (pressedMoveCrosshairPhase st env ev).actions := by
  rcases htp : st.startTrackPoint with _ | sp
  · simp only [pressedMoveCrosshairPhase, htp]
    split
    · exact clamped_nil _
    · exact setCrosshair_clamped st _ _ h1 h2
  · simp only [pressedMoveCrosshairPhase, htp]
    rcases hic : st.initCrosshairPosition with _ | c
    · simp only [hic]
      exact clamped_nil _
    · simp only [hic]
      exact setCrosshair_clamped_to _ _ _ rfl h1 h2

theorem pressedMoveScrollPhase_no_cross (sz : Size) (pane : Pane) (env : Env)
    (ev : TouchMouseEvent) (st1 : ControllerState) :
    crosshairActionsClamped sz (pressedMoveScrollPhase pane env ev st1).actions := by
  intro x y hmem
  unfold pressedMoveScrollPhase at hmem
  simp only [Bool.not_eq_true] at hmem
  by_cases hts : env.timeScaleIsEmpty = true
  · simp [hts, HandlerResult.noop] at hmem
  · by_cases hg : ((env.options.handleScroll.pressedMouseMove = false ∨
        ev.type = EvKind.touch) ∧
        ((env.options.handleScroll.horzTouchDrag = false ∧
          env.options.handleScroll.vertTouchDrag = false) ∨ ev.type = EvKind.mouse))
    · simp [hts, hg, HandlerResult.noop] at hmem
    · rcases hsp : st1.startScrollingPos with _ | sp0
      · by_cases hpv : preventScroll st1 env = true <;>
          cases hsc : st1.isScrolling <;>
          rcases ha : st1.scrollXAnimation with _ | a <;>
          by_cases hpe : pane.defaultPriceScaleIsEmpty = true <;>
          simp [hts, hg, hsp, hpv, hsc, ha, hpe, HandlerResult.noop] at hmem
      · cases hsc : st1.isScrolling <;>
          rcases ha : st1.scrollXAnimation with _ | a <;>
          by_cases hneq : (sp0.x ≠ ev.clientX ∨ sp0.y ≠ ev.clientY) <;>
          by_cases hpe : pane.defaultPriceScaleIsEmpty = true <;>
          simp [hts, hg, hsp, hsc, ha, hneq, hpe, HandlerResult.noop] at hmem

theorem pressedMove_clamped (st : ControllerState) (env : Env) (ev : TouchMouseEvent)
    (h1 : 1 ≤ st.size.w) (h2 : 1 ≤ st.size.h) :
    crosshairActionsClamped st.size (pressedMouseMoveEvent st env ev).actions := by
  rcases hs : st.state with _ | p
  · simp only [pressedMouseMoveEvent, hs]
    exact clamped_nil _
  · simp only [pressedMouseMoveEvent, hs]
    exact andThen_clamped (pressedMoveCrosshairPhase_clamped st env ev h1 h2)
      (pressedMoveScrollPhase_no_cross _ _ _ _ _)

/-- C10 (amended): for a pane of width and height at least 1, every
crosshair position any of the eight interaction handlers passes to the
chart model lies within `[0, width − 1] × [0, height − 1]`, whatever the
raw event coordinates are. -/
theorem crosshair_positions_clamped (st : ControllerState) (env : Env)
    (ev : TouchMouseEvent) (h1 : 1 ≤ st.size.w) (h2 : 1 ≤ st.size.h) :
    crosshairActionsClamped st.size (mouseEnterEvent st env ev).actions
    ∧ crosshairActionsClamped st.size (mouseDownEvent st env ev).actions
    ∧ crosshairActionsClamped st.size (mouseMoveEvent st env ev).actions
    ∧ crosshairActionsClamped st.size (mouseClickEvent st env ev).actions
    ∧ crosshairActionsClamped st.size (pressedMouseMoveEvent st env ev).actions
    ∧ crosshairActionsClamped st.size (mouseUpEvent st env ev).actions
    ∧ crosshairActionsClamped st.size (longTapEvent st env ev).actions
    ∧ crosshairActionsClamped st.size (mouseLeaveEvent st env ev).actions :=
  ⟨mouseEnter_clamped st env ev h1 h2, mouseDown_clamped st env ev h1 h2,
   mouseMove_clamped st env ev h1 h2, mouseClick_clamped st env ev,
   pressedMove_clamped st env ev h1 h2, mouseUp_clamped st env ev,
   longTap_clamped st env ev h1 h2, mouseLeave_clamped st env ev⟩

/-- C10 witness: the clamping theorem at a concrete state, environment and
event. -/
theorem crosshair_positions_clamped_witness :
    crosshairActionsClamped sampleState.size
      (mouseEnterEvent sampleState sampleEnv sampleEvent).actions :=
  (crosshair_positions_clamped sampleState sampleEnv sampleEvent
    (by norm_num [sampleState]) (by norm_num [sampleState])).1

/-- C10 counterexample: with the degenerate 0×0 size a freshly constructed
widget has, a desktop mouse-enter at (20, 30) sends the crosshair position
(0, 0) to the model, and 0 does not lie in `[0, width − 1] = [0, −1]`. -/
theorem crosshair_clamp_zero_size_counterexample :
    (mouseEnterEvent zeroSizeState sampleEnv sampleEvent).actions =
      [ModelAction.setAndSaveCurrentPosition 0 0]
    ∧ ¬ ((0 : ℚ) ≤ zeroSizeState.size.w - 1) := by
  constructor
  · norm_num [mouseEnterEvent, zeroSizeState, sampleState, samplePane, sampleEnv,
      setCrosshairPosition, correctXCoord, correctYCoord, sampleEvent, min_def, max_def]
  · norm_num [zeroSizeState, sampleState]
